import Mathlib

/-!
Verification development for the bounded-context conversation history
manager of `socratic_tutor_v6.py` (ai-socratic-tutor).

The Python module is shallowly embedded below.  External collaborators
(the Gemini token-counting oracle and the generative summarizer) are
modelled as explicit function parameters; all functions of the module
itself are translated directly from the source.
-/

set_option linter.unusedVariables false
set_option maxRecDepth 100000

/-- One conversation turn: a dict `{'role': ..., 'content': ...}` in the
source (`chat_history` entries). Both keys are always present. -/
structure Turn where
  role : String
  content : String
deriving DecidableEq, Repr

/-- Outcome of one call to the generative summarizer
(`model.generate_content` inside `summarize_history`): a usable text,
a response with no candidates/parts/text, a `GoogleAPIError`, or any
other exception. -/
inductive SummarizeResult where
  | ok (text : String)
  | noContent
  | apiError
  | otherError
deriving DecidableEq, Repr

/-- Python `str.strip()`: drop whitespace from both ends. -/
def pyStrip (s : String) : String :=
  String.mk ((((s.data.dropWhile Char.isWhitespace).reverse).dropWhile Char.isWhitespace).reverse)

/-- Python `str.split('\n')`: split on every newline; `""` yields `[""]`. -/
def pySplitNL (s : String) : List String :=
  (s.data.splitOn '\n').map String.mk

/-- Python `str.capitalize()`: first character upper-cased, the rest
lower-cased. -/
def pyCapitalize (s : String) : String :=
  match s.data with
  | [] => ""
  | c :: cs => String.mk (c.toUpper :: cs.map Char.toLower)

/-- Python `sep.join(parts)`. -/
def joinSep (sep : String) : List String → String
  | [] => ""
  | a :: as => as.foldl (fun acc b => acc ++ sep ++ b) a

/-- `MAX_CONTEXT_WINDOW = 32000` (line 20 of the source). -/
def MAX_CONTEXT_WINDOW : Nat := 32000

/-- `LAST_VERBATIM_TURNS = 10` (line 24 of the source). -/
def LAST_VERBATIM_TURNS : Nat := 10

/-- `PROMPT_OVERHEAD_ESTIMATE = 500` (line 27 of the source).  Defined but
never read anywhere else in the module. -/
def PROMPT_OVERHEAD_ESTIMATE : Nat := 500

/-- `int(maxContextWindow * HISTORY_TOKEN_BUDGET_RATIO)` with ratio `0.80`;
for `32000` the float product truncates to exactly `32000 * 80 / 100`. -/
def historyBudget (maxContextWindow : Nat) : Nat :=
  maxContextWindow * 80 / 100

/-- `history_token_budget = int(MAX_CONTEXT_WINDOW * HISTORY_TOKEN_BUDGET_RATIO)`
(line 211 of the source) `= 25600`. -/
def history_token_budget : Nat := historyBudget MAX_CONTEXT_WINDOW

/-- `count_tokens` (lines 100-109): returns `0` for empty text, otherwise
asks the oracle; any oracle failure (`none`) is degraded to `0`, never
propagated. -/
def count_tokens (countO : String → Option Nat) (text : String) : Nat :=
  if text = "" then 0 else (countO text).getD 0

/-- Rendering of one verbatim turn inside `format_history_for_prompt`
(lines 130-135): role capitalized, content stripped and its lines
re-indented by two spaces. -/
def renderTurn (t : Turn) : String :=
  "- " ++ pyCapitalize t.role ++ ":\n  " ++ joinSep "\n  " (pySplitNL (pyStrip t.content))

/-- The `history_parts` list built by the summary branch of
`format_history_for_prompt` (lines 113-121). -/
def formatParts (summary : String) : List String :=
  if summary ≠ "" then
    ["Summary of Older Conversation Turns:",
     "  " ++ joinSep "\n  " (pySplitNL summary),
     "\nRecent Verbatim Conversation Turns:"]
  else
    ["Conversation History (Recent Turns Only):"]

/-- `format_history_for_prompt` (lines 111-137). -/
def format_history_for_prompt (summary : String) (verbatim_turns : List Turn) : String :=
  if verbatim_turns = [] then
    if summary = "" then "No conversation history for this concept yet."
    else joinSep "\n" (formatParts summary ++ ["  (No recent verbatim turns available)"])
  else
    joinSep "\n" (formatParts summary ++ verbatim_turns.map renderTurn)

/-- Modelled from the spec: the spec's testable property asserts the
verbatim section renders each turn with content byte-identical to the
source turn; this variant of the renderer inserts the content unmodified
(no strip, no re-indentation), for comparison with `renderTurn`. -/
def renderTurnBytewise (t : Turn) : String :=
  "- " ++ pyCapitalize t.role ++ ":\n  " ++ t.content

/-- Modelled from the spec: `format_history_for_prompt` as the spec's
"byte-identical" wording describes it, differing from the source only in
using `renderTurnBytewise` for the verbatim section. -/
def format_history_bytewise (summary : String) (verbatim_turns : List Turn) : String :=
  if verbatim_turns = [] then
    if summary = "" then "No conversation history for this concept yet."
    else joinSep "\n" (formatParts summary ++ ["  (No recent verbatim turns available)"])
  else
    joinSep "\n" (formatParts summary ++ verbatim_turns.map renderTurnBytewise)

/-- Truthiness gate on `target_tokens` in `summarize_history` (line 154):
length guidance is added to the prompt only when the target is a number
greater than zero (`if target_tokens and target_tokens > 0`). -/
def normTarget : Option Int → Option Int
  | none => none
  | some t => if 0 < t then some t else none

/-- `summarize_history` (lines 139-202).  The generative call is the
oracle `genO`, taking the discipline, the turns and the (truthy)
token-target embedded in the prompt; in the source the prompt converts
the target to a word-count hint `int(target_tokens * 0.7)` alongside the
verbatim token figure, so passing the raw target to the oracle is a
faithful (injective) encoding of the prompt variation.  A usable response
is stripped; each failure mode yields its marked placeholder. -/
def summarize_history (genO : String → List Turn → Option Int → SummarizeResult)
    (turns_to_summarize : List Turn) (discipline : String)
    (target_tokens : Option Int) : String :=
  if turns_to_summarize = [] then ""
  else
    match genO discipline turns_to_summarize (normTarget target_tokens) with
    | .ok text => pyStrip text
    | .noContent => "[Summarization failed]"
    | .apiError => "[Summarization failed due to API error]"
    | .otherError => "[Summarization failed due to unexpected error]"

/-- `verbatim_cutoff = max(0, len(chat_history) - LAST_VERBATIM_TURNS)`
and `older_turns = chat_history[:verbatim_cutoff]` (lines 214, 216). -/
def olderPartOf (chat_history : List Turn) : List Turn :=
  chat_history.take (chat_history.length - LAST_VERBATIM_TURNS)

/-- `verbatim_turns = chat_history[verbatim_cutoff:]` (line 215). -/
def verbatimPartOf (chat_history : List Turn) : List Turn :=
  chat_history.drop (chat_history.length - LAST_VERBATIM_TURNS)

/-- Step 2 of `manage_history_and_get_context` (lines 221-226): the
summary is recomputed fresh from the older turns (the incoming
`current_summary` is overwritten before any use), or set to `""` when
there are no older turns. -/
def freshSummaryOf (genO : String → List Turn → Option Int → SummarizeResult)
    (chat_history : List Turn) (discipline : String) : String :=
  if olderPartOf chat_history = [] then ""
  else summarize_history genO (olderPartOf chat_history) discipline none

/-- `verbatim_turns_text = "\n".join([f"{t['role']}: {t['content']}" ...])`
(line 230): the raw rendering used for token counting. -/
def renderTurnsForCount (ts : List Turn) : String :=
  joinSep "\n" (ts.map (fun t => t.role ++ ": " ++ t.content))

/-- `verbatim_tokens` (line 231). -/
def verbatimTokensOf (countO : String → Option Nat) (chat_history : List Turn) : Nat :=
  count_tokens countO (renderTurnsForCount (verbatimPartOf chat_history))

/-- `allowed_summary_tokens = history_token_budget - verbatim_tokens`
(line 240), a Python int that may be negative. -/
def allowedOf (countO : String → Option Nat) (chat_history : List Turn) : Int :=
  (history_token_budget : Int) - (verbatimTokensOf countO chat_history : Int)

/-- The marker summary installed by the hard-overflow branch (line 246). -/
def discardMarker : String := "[History discarded due to excessive verbatim length]"

/-- Observable state of one `manage_history_and_get_context` call: the
step-1 partition, the step-2 fresh summary, and the final summary,
verbatim list and context string that the function formats and returns. -/
structure ManageResult where
  olderPart : List Turn
  verbatimPart : List Turn
  freshSummary : String
  summaryFinal : String
  verbatimFinal : List Turn
  context : String
deriving DecidableEq, Repr

/-- `manage_history_and_get_context` (lines 205-268), with the local
variables exposed as record fields.  Control flow: partition (step 1),
fresh summarization (step 2), token measurement (step 3), the overflow
cascade of line 236-260 (hard overflow discards everything and installs
`discardMarker`; a too-long summary with non-empty older turns triggers a
re-targeted summarization accepted as-is; empty older turns clear the
summary), then formatting (line 264). -/
def manageHistoryFull (countO : String → Option Nat)
    (genO : String → List Turn → Option Int → SummarizeResult)
    (current_summary : String) (chat_history : List Turn)
    (discipline : String) : ManageResult :=
  if count_tokens countO (freshSummaryOf genO chat_history discipline)
      + verbatimTokensOf countO chat_history > history_token_budget then
    if allowedOf countO chat_history < 0 then
      ⟨olderPartOf chat_history, verbatimPartOf chat_history,
       freshSummaryOf genO chat_history discipline,
       discardMarker, [],
       format_history_for_prompt discardMarker []⟩
    else if allowedOf countO chat_history
            < (count_tokens countO (freshSummaryOf genO chat_history discipline) : Int)
          ∧ olderPartOf chat_history ≠ [] then
      ⟨olderPartOf chat_history, verbatimPartOf chat_history,
       freshSummaryOf genO chat_history discipline,
       summarize_history genO (olderPartOf chat_history) discipline
         (some (allowedOf countO chat_history)),
       verbatimPartOf chat_history,
       format_history_for_prompt
         (summarize_history genO (olderPartOf chat_history) discipline
           (some (allowedOf countO chat_history)))
         (verbatimPartOf chat_history)⟩
    else if olderPartOf chat_history = [] then
      ⟨olderPartOf chat_history, verbatimPartOf chat_history,
       freshSummaryOf genO chat_history discipline,
       "", verbatimPartOf chat_history,
       format_history_for_prompt "" (verbatimPartOf chat_history)⟩
    else
      ⟨olderPartOf chat_history, verbatimPartOf chat_history,
       freshSummaryOf genO chat_history discipline,
       freshSummaryOf genO chat_history discipline,
       verbatimPartOf chat_history,
       format_history_for_prompt (freshSummaryOf genO chat_history discipline)
         (verbatimPartOf chat_history)⟩
  else
    ⟨olderPartOf chat_history, verbatimPartOf chat_history,
     freshSummaryOf genO chat_history discipline,
     freshSummaryOf genO chat_history discipline,
     verbatimPartOf chat_history,
     format_history_for_prompt (freshSummaryOf genO chat_history discipline)
       (verbatimPartOf chat_history)⟩

/-- The pair actually returned by `manage_history_and_get_context`
(line 268): the formatted context string and the updated summary. -/
def manage_history_and_get_context (countO : String → Option Nat)
    (genO : String → List Turn → Option Int → SummarizeResult)
    (current_summary : String) (chat_history : List Turn)
    (discipline : String) : String × String :=
  ((manageHistoryFull countO genO current_summary chat_history discipline).context,
   (manageHistoryFull countO genO current_summary chat_history discipline).summaryFinal)

/-- Startup outcome of the program. -/
inductive StartupOutcome where
  | fatalExit
  | ok
deriving DecidableEq, Repr

/-- `configure_gemini` (lines 65-79): exits fatally when the API key is
missing or when configuration / the `count_tokens("test")` probe raises;
otherwise succeeds.  It reads neither `MAX_CONTEXT_WINDOW` nor
`PROMPT_OVERHEAD_ESTIMATE`. -/
def configure_gemini (apiKeyPresent : Bool) (apiProbeOk : Bool) : StartupOutcome :=
  if apiKeyPresent then (if apiProbeOk then .ok else .fatalExit) else .fatalExit

/-- The startup sequence of `run_tutor` (lines 406-416): `load_qa_bank`
(fatal exit on a missing or invalid bank) then `configure_gemini`.  The
budget constants are passed as parameters to state configuration claims;
no statement in the source's startup path inspects them, so the outcome
is computed without reference to `maxContextWindow` or
`promptOverhead`. -/
def startup_outcome (maxContextWindow : Nat) (promptOverhead : Nat)
    (bankOk : Bool) (apiKeyPresent : Bool) (apiProbeOk : Bool) : StartupOutcome :=
  if bankOk then configure_gemini apiKeyPresent apiProbeOk else .fatalExit

/-- A summarizer call that raised a transient failure or produced no
usable output (the three except/guard branches of `summarize_history`,
lines 188-202). -/
def isFailureResult (r : SummarizeResult) : Prop :=
  r = .noContent ∨ r = .apiError ∨ r = .otherError

/- ---------------------------------------------------------------------
Helper lemmas
--------------------------------------------------------------------- -/

theorem foldl_append_extend (sep : String) :
    ∀ (l : List String) (x : String),
      ∃ r, l.foldl (fun acc y => acc ++ sep ++ y) x = x ++ r
  | [], x => ⟨"", (String.append_empty x).symm⟩
  | y :: ys, x => by
    obtain ⟨r, hr⟩ := foldl_append_extend sep ys (x ++ sep ++ y)
    refine ⟨sep ++ y ++ r, ?_⟩
    rw [List.foldl_cons, hr, String.append_assoc, String.append_assoc,
        String.append_assoc]

theorem joinSep_summary_prefix (s : String) (l : List String)
    (hne : s ≠ "") (hsplit : pySplitNL s = [s]) :
    ∃ r, joinSep "\n" (formatParts s ++ l)
      = "Summary of Older Conversation Turns:\n  " ++ s ++ r := by
  unfold formatParts
  rw [if_pos hne, hsplit]
  have hone : joinSep "\n  " [s] = s := rfl
  rw [hone]
  obtain ⟨r, hr⟩ := foldl_append_extend "\n"
    (("\nRecent Verbatim Conversation Turns:" :: l))
    ("Summary of Older Conversation Turns:" ++ "\n" ++ ("  " ++ s))
  refine ⟨r, ?_⟩
  have hjoin : joinSep "\n"
        (("Summary of Older Conversation Turns:" :: ("  " ++ s)
          :: "\nRecent Verbatim Conversation Turns:" :: l))
      = (("  " ++ s) :: "\nRecent Verbatim Conversation Turns:" :: l).foldl
          (fun acc y => acc ++ "\n" ++ y) "Summary of Older Conversation Turns:" := rfl
  simp only [List.cons_append, List.nil_append]
  rw [hjoin, List.foldl_cons, hr]
  rw [← String.append_assoc ("Summary of Older Conversation Turns:" ++ "\n") "  " s]
  rfl

theorem format_prefix_of_singleline (s : String) (verb : List Turn)
    (hne : s ≠ "") (hsplit : pySplitNL s = [s]) :
    ∃ r, format_history_for_prompt s verb
      = "Summary of Older Conversation Turns:\n  " ++ s ++ r := by
  unfold format_history_for_prompt
  by_cases hv : verb = []
  · rw [if_pos hv, if_neg hne]
    exact joinSep_summary_prefix s _ hne hsplit
  · rw [if_neg hv]
    exact joinSep_summary_prefix s _ hne hsplit

theorem format_eq_bytewise (s : String) (verb : List Turn)
    (hclean : ∀ t ∈ verb,
      pyStrip t.content = t.content ∧ pySplitNL t.content = [t.content]) :
    format_history_for_prompt s verb = format_history_bytewise s verb := by
  unfold format_history_for_prompt format_history_bytewise
  by_cases hv : verb = []
  · rw [if_pos hv, if_pos hv]
  · rw [if_neg hv, if_neg hv]
    have hmap : verb.map renderTurn = verb.map renderTurnBytewise := by
      apply List.map_congr_left
      intro t ht
      obtain ⟨h1, h2⟩ := hclean t ht
      unfold renderTurn renderTurnBytewise
      rw [h1, h2]
      rfl
    rw [hmap]

/- ---------------------------------------------------------------------
Claim theorems
--------------------------------------------------------------------- -/

/-- C1 (counterexample): when the verbatim window alone exceeds the
history token budget (`allowedOf < 0`), the returned summary is NOT
empty as the claim states — the code installs the marker string
`"[History discarded due to excessive verbatim length]"`. -/
theorem c1_counterexample :
    allowedOf (fun _ => some 30000) [⟨"user", "hi"⟩] < 0
    ∧ (manageHistoryFull (fun _ => some 30000) (fun _ _ _ => SummarizeResult.ok "S") ""
        [⟨"user", "hi"⟩] "Mathematics").summaryFinal ≠ "" := by
  decide

/-- C1 (amended): when the verbatim window alone exceeds the history
token budget, `manage_history_and_get_context` does not raise and does
not return the over-budget verbatim turns: it empties the verbatim list
and sets the summary to the fixed marker string, which is what signals
the degradation to the caller; the context block is formatted from that
marker and the empty list. -/
theorem c1_hard_overflow_discards (countO : String → Option Nat)
    (genO : String → List Turn → Option Int → SummarizeResult)
    (prev : String) (log : List Turn) (disc : String)
    (h : allowedOf countO log < 0) :
    (manageHistoryFull countO genO prev log disc).summaryFinal = discardMarker
    ∧ (manageHistoryFull countO genO prev log disc).verbatimFinal = []
    ∧ (manageHistoryFull countO genO prev log disc).context
        = format_history_for_prompt discardMarker [] := by
  have hover : count_tokens countO (freshSummaryOf genO log disc)
      + verbatimTokensOf countO log > history_token_budget := by
    unfold allowedOf at h
    omega
  unfold manageHistoryFull
  rw [if_pos hover, if_pos h]
  exact ⟨rfl, rfl, rfl⟩

/-- C1 witness: a one-turn log whose render costs 30000 tokens triggers
the hard-overflow branch. -/
theorem c1_hard_overflow_discards_witness :
    (manageHistoryFull (fun _ => some 30000) (fun _ _ _ => SummarizeResult.ok "S") ""
        [⟨"user", "hi"⟩] "Mathematics").verbatimFinal = [] :=
  (c1_hard_overflow_discards (fun _ => some 30000) (fun _ _ _ => SummarizeResult.ok "S") ""
    [⟨"user", "hi"⟩] "Mathematics" (by decide)).2.1

/-- C7: `count_tokens` returns a `Nat` (hence non-negative), returns `0`
for empty input without consulting the oracle, and degrades an oracle
failure (`none`) to `0` instead of propagating it. -/
theorem c7_count_tokens_degrades (countO : String → Option Nat) (s : String) :
    count_tokens countO "" = 0
    ∧ (countO s = none → count_tokens countO s = 0)
    ∧ 0 ≤ (count_tokens countO s : Int) := by
  refine ⟨by simp [count_tokens], ?_, Int.ofNat_nonneg _⟩
  intro h
  unfold count_tokens
  split_ifs with hs
  · rfl
  · rw [h]
    rfl

/-- C7 witness: the always-failing oracle yields count `0` on both the
empty string and `"abc"`. -/
theorem c7_count_tokens_degrades_witness :
    count_tokens (fun _ => none) "" = 0 ∧ count_tokens (fun _ => none) "abc" = 0 :=
  ⟨(c7_count_tokens_degrades (fun _ => none) "abc").1,
   (c7_count_tokens_degrades (fun _ => none) "abc").2.1 rfl⟩

/-- C9: the configuration claim fails on the code.  With a max context
window of 500 the history budget (400) is smaller than
`PROMPT_OVERHEAD_ESTIMATE` (500), yet startup succeeds: the startup path
(`load_qa_bank` then `configure_gemini`) validates only the question
bank, the API key and the token-counting probe, and its outcome is
independent of the budget constants — no fail-fast configuration check
exists anywhere in the module. -/
theorem c9_no_startup_budget_check :
    historyBudget 500 < PROMPT_OVERHEAD_ESTIMATE
    ∧ startup_outcome 500 PROMPT_OVERHEAD_ESTIMATE true true true = StartupOutcome.ok
    ∧ ∀ (w₁ o₁ w₂ o₂ : Nat) (bank key probe : Bool),
        startup_outcome w₁ o₁ bank key probe = startup_outcome w₂ o₂ bank key probe :=
  ⟨by decide, rfl, fun _ _ _ _ _ _ _ => rfl⟩

/-- C10: the pair returned by `manage_history_and_get_context` does not
depend on the previous-summary argument: the summary is recomputed from
the turn log before any use of the argument.  (In this pure embedding
the input turn log is immutable by construction; the source likewise
only slices `chat_history` and never mutates it.) -/
theorem c10_previous_summary_ignored (countO : String → Option Nat)
    (genO : String → List Turn → Option Int → SummarizeResult)
    (log : List Turn) (disc prev₁ prev₂ : String) :
    manage_history_and_get_context countO genO prev₁ log disc
      = manage_history_and_get_context countO genO prev₂ log disc := rfl

/-- C2 (counterexample): with a consistent oracle charging 20000 tokens
for any non-empty text, an 11-turn log overflows, the re-targeted
summary still measures 20000 tokens, and the function returns with
`count_tokens(summary) + count_tokens(render(verbatim)) = 40000 > 25600`
while neither summary nor verbatim is empty — the claim's only allowed
exception does not apply. -/
theorem c2_counterexample :
    count_tokens (fun _ => some 20000)
        (manageHistoryFull (fun _ => some 20000) (fun _ _ _ => SummarizeResult.ok "S") ""
          (List.replicate 11 ⟨"user", "x"⟩) "d").summaryFinal
      + count_tokens (fun _ => some 20000)
        (renderTurnsForCount
          (manageHistoryFull (fun _ => some 20000) (fun _ _ _ => SummarizeResult.ok "S") ""
            (List.replicate 11 ⟨"user", "x"⟩) "d").verbatimFinal)
      > history_token_budget
    ∧ (manageHistoryFull (fun _ => some 20000) (fun _ _ _ => SummarizeResult.ok "S") ""
        (List.replicate 11 ⟨"user", "x"⟩) "d").summaryFinal ≠ ""
    ∧ (manageHistoryFull (fun _ => some 20000) (fun _ _ _ => SummarizeResult.ok "S") ""
        (List.replicate 11 ⟨"user", "x"⟩) "d").verbatimFinal ≠ [] := by
  decide

/-- C2 (amended): after `manage_history_and_get_context` returns, either
the measured total `count_tokens(summary) + count_tokens(render(verbatim))`
is within the history budget, or the hard-overflow fallback fired
(verbatim emptied, summary set to the marker string), or the best-effort
path fired: the older turns were re-summarized with the
`allowed_summary_tokens` target and the possibly still over-budget result
was accepted with only a warning. -/
theorem c2_budget_trichotomy (countO : String → Option Nat)
    (genO : String → List Turn → Option Int → SummarizeResult)
    (prev : String) (log : List Turn) (disc : String) :
    count_tokens countO (manageHistoryFull countO genO prev log disc).summaryFinal
      + count_tokens countO
          (renderTurnsForCount (manageHistoryFull countO genO prev log disc).verbatimFinal)
      ≤ history_token_budget
    ∨ ((manageHistoryFull countO genO prev log disc).summaryFinal = discardMarker
       ∧ (manageHistoryFull countO genO prev log disc).verbatimFinal = [])
    ∨ (olderPartOf log ≠ []
       ∧ (manageHistoryFull countO genO prev log disc).summaryFinal
           = summarize_history genO (olderPartOf log) disc (some (allowedOf countO log))
       ∧ (manageHistoryFull countO genO prev log disc).verbatimFinal = verbatimPartOf log) := by
  unfold manageHistoryFull
  split_ifs with h1 h2 h3 h4
  · exact Or.inr (Or.inl ⟨rfl, rfl⟩)
  · exact Or.inr (Or.inr ⟨h3.2, rfl, rfl⟩)
  · refine Or.inl ?_
    show count_tokens countO ""
        + count_tokens countO (renderTurnsForCount (verbatimPartOf log))
        ≤ history_token_budget
    have hz : count_tokens countO "" = 0 := by simp [count_tokens]
    have hvt : count_tokens countO (renderTurnsForCount (verbatimPartOf log))
        = verbatimTokensOf countO log := rfl
    unfold allowedOf at h2
    omega
  · refine Or.inl ?_
    show count_tokens countO (freshSummaryOf genO log disc)
        + count_tokens countO (renderTurnsForCount (verbatimPartOf log))
        ≤ history_token_budget
    have hvt : count_tokens countO (renderTurnsForCount (verbatimPartOf log))
        = verbatimTokensOf countO log := rfl
    have hns : ¬ (allowedOf countO log
        < (count_tokens countO (freshSummaryOf genO log disc) : Int)) := by
      intro hlt
      exact h3 ⟨hlt, h4⟩
    rw [hvt]
    unfold allowedOf at hns
    omega
  · refine Or.inl ?_
    show count_tokens countO (freshSummaryOf genO log disc)
        + count_tokens countO (renderTurnsForCount (verbatimPartOf log))
        ≤ history_token_budget
    have hvt : count_tokens countO (renderTurnsForCount (verbatimPartOf log))
        = verbatimTokensOf countO log := rfl
    rw [hvt]
    omega

/-- C3: the step-1 partition of `manage_history_and_get_context` puts
exactly the most recent `min(LAST_VERBATIM_TURNS, |log|)` turns in the
verbatim window, in original order and unmodified (the older prefix and
the window reassemble the log); older turns are passed to the summarizer
whenever there are any (the step-2 summary is computed from them), and
the final verbatim list is either that window or empty — older turns are
never rendered verbatim. -/
theorem c3_partition_invariant (countO : String → Option Nat)
    (genO : String → List Turn → Option Int → SummarizeResult)
    (prev : String) (log : List Turn) (disc : String) :
    (verbatimPartOf log).length = min LAST_VERBATIM_TURNS log.length
    ∧ olderPartOf log ++ verbatimPartOf log = log
    ∧ (manageHistoryFull countO genO prev log disc).freshSummary
        = (if olderPartOf log = [] then ""
           else summarize_history genO (olderPartOf log) disc none)
    ∧ ((manageHistoryFull countO genO prev log disc).verbatimFinal = verbatimPartOf log
       ∨ (manageHistoryFull countO genO prev log disc).verbatimFinal = []) := by
  refine ⟨?_, ?_, ?_, ?_⟩
  · unfold verbatimPartOf
    rw [List.length_drop]
    omega
  · exact List.take_append_drop _ _
  · have hfresh : (manageHistoryFull countO genO prev log disc).freshSummary
        = freshSummaryOf genO log disc := by
      unfold manageHistoryFull
      split_ifs <;> rfl
    rw [hfresh]
    rfl
  · unfold manageHistoryFull
    split_ifs
    · exact Or.inr rfl
    · exact Or.inl rfl
    · exact Or.inl rfl
    · exact Or.inl rfl
    · exact Or.inl rfl

/-- C5 (counterexample): a one-turn log (so the older partition is
empty) whose render measures 26000 tokens triggers the hard-overflow
branch, and the returned summary is the non-empty marker string, not the
empty string the claim requires for an empty older partition. -/
theorem c5_counterexample :
    olderPartOf [(⟨"user", "yo"⟩ : Turn)] = []
    ∧ (manageHistoryFull (fun _ => some 26000) (fun _ _ _ => SummarizeResult.ok "S") ""
        [⟨"user", "yo"⟩] "d").summaryFinal ≠ "" := by
  decide

/-- C5 (amended): the returned summary never depends on the previous
summary passed in.  In the hard-overflow case it is the fixed marker
string; otherwise, when the older partition is empty it is `""`, and
when the older partition is non-empty it is the summarizer's fresh
output on the older turns — either the initial call or the re-targeted
call with the `allowed_summary_tokens` hint. -/
theorem c5_summary_policy (countO : String → Option Nat)
    (genO : String → List Turn → Option Int → SummarizeResult)
    (prev : String) (log : List Turn) (disc : String) :
    (allowedOf countO log < 0 →
        (manageHistoryFull countO genO prev log disc).summaryFinal = discardMarker)
    ∧ (0 ≤ allowedOf countO log →
        (olderPartOf log = [] →
            (manageHistoryFull countO genO prev log disc).summaryFinal = "")
        ∧ (olderPartOf log ≠ [] →
            (manageHistoryFull countO genO prev log disc).summaryFinal
              = summarize_history genO (olderPartOf log) disc none
            ∨ (manageHistoryFull countO genO prev log disc).summaryFinal
              = summarize_history genO (olderPartOf log) disc
                  (some (allowedOf countO log)))) := by
  constructor
  · intro h
    have hover : count_tokens countO (freshSummaryOf genO log disc)
        + verbatimTokensOf countO log > history_token_budget := by
      unfold allowedOf at h
      omega
    unfold manageHistoryFull
    rw [if_pos hover, if_pos h]
  · intro hpos
    unfold manageHistoryFull
    split_ifs with h1 h2 h3 h4
    · exact absurd h2 (not_lt.mpr hpos)
    · refine ⟨fun he => absurd he h3.2, fun _ => Or.inr rfl⟩
    · refine ⟨fun _ => rfl, fun hne => absurd h4 hne⟩
    · refine ⟨fun he => absurd he h4, fun hne => Or.inl ?_⟩
      show freshSummaryOf genO log disc = _
      unfold freshSummaryOf
      rw [if_neg hne]
    · constructor
      · intro he
        show freshSummaryOf genO log disc = ""
        unfold freshSummaryOf
        rw [if_pos he]
      · intro hne
        refine Or.inl ?_
        show freshSummaryOf genO log disc = _
        unfold freshSummaryOf
        rw [if_neg hne]

/-- C5 witness: with a one-turn log rendering at 27000 tokens the
hard-overflow clause of the policy applies and the returned summary is
the marker string. -/
theorem c5_summary_policy_witness :
    (manageHistoryFull (fun _ => some 27000) (fun _ _ _ => SummarizeResult.ok "T") ""
        [⟨"assistant", "ok"⟩] "d").summaryFinal = discardMarker :=
  (c5_summary_policy (fun _ => some 27000) (fun _ _ _ => SummarizeResult.ok "T") ""
    [⟨"assistant", "ok"⟩] "d").1 (by decide)

/-- C6: when the measured total overflows the budget, the older
partition is non-empty, and `allowed_summary_tokens` is non-negative but
below the summary's measured size, the summarizer is re-invoked on the
older turns with the `allowed_summary_tokens` target (turned into a
words hint inside the prompt); the result is installed and formatted
as-is — the theorem imposes no condition on the re-measured total, i.e.
a still-over-budget result is accepted (best-effort, warning only). -/
theorem c6_resummarize_best_effort (countO : String → Option Nat)
    (genO : String → List Turn → Option Int → SummarizeResult)
    (prev : String) (log : List Turn) (disc : String)
    (hover : count_tokens countO (freshSummaryOf genO log disc)
        + verbatimTokensOf countO log > history_token_budget)
    (hold : olderPartOf log ≠ [])
    (hpos : 0 ≤ allowedOf countO log)
    (hlt : allowedOf countO log
        < (count_tokens countO (freshSummaryOf genO log disc) : Int)) :
    (manageHistoryFull countO genO prev log disc).summaryFinal
      = summarize_history genO (olderPartOf log) disc (some (allowedOf countO log))
    ∧ (manageHistoryFull countO genO prev log disc).verbatimFinal = verbatimPartOf log
    ∧ (manageHistoryFull countO genO prev log disc).context
      = format_history_for_prompt
          (summarize_history genO (olderPartOf log) disc (some (allowedOf countO log)))
          (verbatimPartOf log) := by
  unfold manageHistoryFull
  rw [if_pos hover, if_neg (not_lt.mpr hpos), if_pos ⟨hlt, hold⟩]
  exact ⟨rfl, rfl, rfl⟩

/-- C6 witness: eleven one-character turns with every non-empty text
measured at 20000 tokens overflow the 25600 budget; the older partition
holds one turn, `allowed_summary_tokens = 5600` is non-negative and
below the summary's 20000 tokens, and the result equals the re-targeted
summarizer output. -/
theorem c6_resummarize_best_effort_witness :
    (manageHistoryFull (fun _ => some 20000) (fun _ _ _ => SummarizeResult.ok "R") ""
        (List.replicate 11 ⟨"user", "y"⟩) "d").summaryFinal
      = summarize_history (fun _ _ _ => SummarizeResult.ok "R")
          (olderPartOf (List.replicate 11 ⟨"user", "y"⟩)) "d"
          (some (allowedOf (fun _ => some 20000) (List.replicate 11 ⟨"user", "y"⟩))) :=
  (c6_resummarize_best_effort (fun _ => some 20000) (fun _ _ _ => SummarizeResult.ok "R") ""
    (List.replicate 11 ⟨"user", "y"⟩) "d"
    (by decide) (by decide) (by decide) (by decide)).1

/-- C4 (counterexample): an 11-turn log whose last turn's content is
`"a\nb"` fits the budget (oracle charges 1 token), yet the produced
context block differs from the byte-identical rendering the claim
demands: `format_history_for_prompt` re-indents the content's second
line, so the content is not reproduced byte-identically. -/
theorem c4_counterexample :
    (List.replicate 10 (⟨"user", "a"⟩ : Turn) ++ ([⟨"assistant", "a\nb"⟩] : List Turn)).length
        > LAST_VERBATIM_TURNS
    ∧ (manageHistoryFull (fun _ => some 1) (fun _ _ _ => SummarizeResult.ok "S") ""
         (List.replicate 10 (⟨"user", "a"⟩ : Turn) ++ ([⟨"assistant", "a\nb"⟩] : List Turn))
         "d").context
      ≠ format_history_bytewise
          (manageHistoryFull (fun _ => some 1) (fun _ _ _ => SummarizeResult.ok "S") ""
            (List.replicate 10 (⟨"user", "a"⟩ : Turn) ++ ([⟨"assistant", "a\nb"⟩] : List Turn))
            "d").summaryFinal
          (verbatimPartOf
            (List.replicate 10 (⟨"user", "a"⟩ : Turn)
              ++ ([⟨"assistant", "a\nb"⟩] : List Turn))) := by
  decide

/-- C4 (amended): for a log longer than `LAST_VERBATIM_TURNS`, provided
the hard-overflow fallback does not fire (`allowed_summary_tokens ≥ 0`),
the verbatim section of the context block is exactly the last
`LAST_VERBATIM_TURNS` turns in order; each turn's content is rendered
after a `strip()` and a two-space re-indentation of its lines, so it is
byte-identical exactly when the content is already stripped and
single-line — which the cleanliness hypothesis expresses, making the
code's block coincide with the byte-identical rendering. -/
theorem c4_verbatim_render (countO : String → Option Nat)
    (genO : String → List Turn → Option Int → SummarizeResult)
    (prev : String) (log : List Turn) (disc : String)
    (hlen : log.length > LAST_VERBATIM_TURNS)
    (hallow : 0 ≤ allowedOf countO log)
    (hclean : ∀ t ∈ verbatimPartOf log,
        pyStrip t.content = t.content ∧ pySplitNL t.content = [t.content]) :
    (manageHistoryFull countO genO prev log disc).verbatimFinal = verbatimPartOf log
    ∧ (manageHistoryFull countO genO prev log disc).context
        = format_history_bytewise
            (manageHistoryFull countO genO prev log disc).summaryFinal
            (verbatimPartOf log) := by
  have hfmt : ∀ s : String,
      format_history_for_prompt s (verbatimPartOf log)
        = format_history_bytewise s (verbatimPartOf log) :=
    fun s => format_eq_bytewise s (verbatimPartOf log) hclean
  unfold manageHistoryFull
  split_ifs with h1 h2 h3 h4
  · exact absurd h2 (not_lt.mpr hallow)
  · exact ⟨rfl, hfmt _⟩
  · exact ⟨rfl, hfmt _⟩
  · exact ⟨rfl, hfmt _⟩
  · exact ⟨rfl, hfmt _⟩

/-- C4 witness: eleven stripped single-line turns under a cheap oracle
satisfy the hypotheses, and the block equals the byte-identical
rendering of the last ten turns. -/
theorem c4_verbatim_render_witness :
    (manageHistoryFull (fun _ => some 2) (fun _ _ _ => SummarizeResult.ok "W") ""
        (List.replicate 11 ⟨"user", "hello"⟩) "d").verbatimFinal
      = verbatimPartOf (List.replicate 11 ⟨"user", "hello"⟩) :=
  (c4_verbatim_render (fun _ => some 2) (fun _ _ _ => SummarizeResult.ok "W") ""
    (List.replicate 11 ⟨"user", "hello"⟩) "d"
    (by decide) (by decide) (by decide)).1

/-- C8: when the summarizer raises a transient failure or returns no
usable output, `summarize_history` returns one of the three clearly
marked placeholder strings instead of failing, and
`format_history_for_prompt` still renders a context block that carries
that placeholder in the labelled summary section — every code path
returns a value, so no exception reaches the caller. -/
theorem c8_summarizer_failure_placeholder
    (genO : String → List Turn → Option Int → SummarizeResult)
    (turns : List Turn) (disc : String) (target : Option Int) (verb : List Turn)
    (hne : turns ≠ [])
    (hfail : isFailureResult (genO disc turns (normTarget target))) :
    (summarize_history genO turns disc target = "[Summarization failed]"
     ∨ summarize_history genO turns disc target = "[Summarization failed due to API error]"
     ∨ summarize_history genO turns disc target
         = "[Summarization failed due to unexpected error]")
    ∧ ∃ rest,
        format_history_for_prompt (summarize_history genO turns disc target) verb
          = "Summary of Older Conversation Turns:\n  "
            ++ summarize_history genO turns disc target ++ rest := by
  have hsum : summarize_history genO turns disc target = "[Summarization failed]"
      ∨ summarize_history genO turns disc target = "[Summarization failed due to API error]"
      ∨ summarize_history genO turns disc target
          = "[Summarization failed due to unexpected error]" := by
    unfold summarize_history
    rw [if_neg hne]
    rcases hfail with h | h | h <;> rw [h]
    · exact Or.inl rfl
    · exact Or.inr (Or.inl rfl)
    · exact Or.inr (Or.inr rfl)
  refine ⟨hsum, ?_⟩
  rcases hsum with h | h | h <;> rw [h]
  · exact format_prefix_of_singleline _ verb (by decide) (by decide)
  · exact format_prefix_of_singleline _ verb (by decide) (by decide)
  · exact format_prefix_of_singleline _ verb (by decide) (by decide)

/-- C8 witness: an always-API-erroring summarizer on a one-turn older
partition yields the API-error placeholder, and the block formatted with
an empty verbatim list still opens its summary section with it. -/
theorem c8_summarizer_failure_placeholder_witness :
    (summarize_history (fun _ _ _ => SummarizeResult.apiError) [⟨"user", "q"⟩] "d" none
        = "[Summarization failed]"
     ∨ summarize_history (fun _ _ _ => SummarizeResult.apiError) [⟨"user", "q"⟩] "d" none
        = "[Summarization failed due to API error]"
     ∨ summarize_history (fun _ _ _ => SummarizeResult.apiError) [⟨"user", "q"⟩] "d" none
        = "[Summarization failed due to unexpected error]")
    ∧ ∃ rest,
        format_history_for_prompt
            (summarize_history (fun _ _ _ => SummarizeResult.apiError) [⟨"user", "q"⟩] "d" none)
            []
          = "Summary of Older Conversation Turns:\n  "
            ++ summarize_history (fun _ _ _ => SummarizeResult.apiError)
                 [⟨"user", "q"⟩] "d" none ++ rest :=
  c8_summarizer_failure_placeholder (fun _ _ _ => SummarizeResult.apiError)
    [⟨"user", "q"⟩] "d" none [] (by decide) (Or.inr (Or.inl rfl))
